import Mathlib

/-!
Shallow embedding of the record-to-point decomposition pipeline of the
`sdf-rs` repository (src/convert.rs, src/file.rs, src/error.rs), together
with theorems checking the natural-language specification against it.

Modelling conventions:
* Rust `f64` values are modelled as exact rationals (`ℚ`); the claims checked
  here concern formula structure and control flow, not rounding behaviour.
* Rust `u8`/`u16` casts are modelled as `Nat` values with explicit `% 2^w`
  where the source performs a narrowing cast (`as u8`).
* The external peak detector (`peakbag::PeakDetector::detect_peaks`) and the
  standard library's `f64::atan`/`to_degrees` are external capabilities: they
  are passed as function parameters to the embedded code.
* A Rust `panic!` (or `Option::unwrap` on `None`) is a third outcome,
  distinct from returning `Err`; `Outcome` has constructors for all three.
-/

set_option maxHeartbeats 1000000
set_option maxRecDepth 100000

namespace SdfRs

/-- The detector channel of a sample block (src/file.rs, `enum Channel`). -/
inductive Channel where
  | High
  | Low
  | Saturation
  | Reference
deriving DecidableEq, Repr

/-- A sample block (src/file.rs, `struct Block`): start time of the sample
block in seconds, channel, and the raw `u16` samples. -/
structure Block where
  time_sosbl : ℚ
  channel : Channel
  samples : List Nat
deriving DecidableEq, Repr

/-- A 3-vector of `f64` values, modelling the Rust `[f64; 3]` arrays, with
`x`, `y`, `z` standing for indices 0, 1, 2. -/
structure Vec3 where
  x : ℚ
  y : ℚ
  z : ℚ
deriving DecidableEq, Repr

/-- A sample data record (src/file.rs, `struct Record`). -/
structure Record where
  time_sorg : ℚ
  time_external : ℚ
  origin : Vec3
  direction : Vec3
  synchronized : Bool
  sync_lastsec : Bool
  housekeeping : Bool
  facet : Nat
  blocks : List Block
deriving DecidableEq, Repr

/-- Information about a file (src/file.rs, `struct FileInfo`). -/
structure FileInfo where
  instrument : String
  serial : String
  epoch : String
  v_group : ℚ
  sampling_time : ℚ
  gps_synchronized : Bool
  num_facets : Nat
deriving DecidableEq, Repr

/-- The error type (src/error.rs, `enum SdfError`; src/convert.rs refers to
it as `Error`).  Payloads of wrapped foreign errors (`NulError`, `SdcError`,
`Utf8Error`) are modelled as strings. -/
inductive SdfError where
  | BadArg (msg : String)
  | EndOfFile (msg : String)
  | InvalidChannel (n : Nat)
  | MissingChannel (c : Channel)
  | MissingIndex (msg : String)
  | NoCalibrationTableForChannel (c : Channel)
  | NotImplemented (msg : String)
  | Nul (msg : String)
  | Runtime (msg : String)
  | Sdc (msg : String)
  | NeedSingleReferencePeak (n : Nat)
  | Utf8 (msg : String)
  | UnknownCode (code : Int)
  | UnknownException (msg : String)
  | UnsupportedFormat (msg : String)
deriving DecidableEq, Repr

/-- The outcome of running a Rust function that can return `Ok`, return
`Err`, or `panic!`.  A panic unwinds: it is loudly distinct from both
success and a returned error. -/
inductive Outcome (α : Type) where
  | ok (val : α)
  | err (e : SdfError)
  | panic (msg : String)
deriving DecidableEq, Repr

/-- True exactly when the outcome is a panic. -/
def Outcome.isPanic {α : Type} : Outcome α → Bool
  | .panic _ => true
  | _ => false

/-- True exactly when the outcome is an `ok`. -/
def Outcome.isOk {α : Type} : Outcome α → Bool
  | .ok _ => true
  | _ => false

/-- True exactly when the outcome is the recoverable
`NeedSingleReferencePeak` error. -/
def Outcome.isRefPeakErr {α : Type} : Outcome α → Bool
  | .err (SdfError.NeedSingleReferencePeak _) => true
  | _ => false

/-- The point list of an `ok` outcome, `[]` otherwise (used only to state
concrete counterexamples). -/
def Outcome.pointsOrNil {α : Type} : Outcome (List α) → List α
  | .ok l => l
  | _ => []

/-- A peak returned by the external detector (`peakbag::Peak<u16>`): a
sample index and an amplitude.  Modelled from the spec: "Peak: {index,
amplitude, optional shape stats}"; the optional shape statistics are not
consulted by this repository, so they are omitted. -/
structure Peak where
  index : Nat
  amplitude : Nat
deriving DecidableEq, Repr

/-- Modelled from the spec: the external `peakbag::PeakDetector`
configuration, "config{width, floor, ceiling, optional saturation,
min_height_above_background, max_kurtosis}".  The builder starts with the
optional parts unset; `discretize` always sets the minimum height and the
maximum kurtosis before use. -/
structure PeakDetector where
  width : Nat
  floor : Nat
  ceiling : Nat
  minHeightAboveBackground : Option ℚ
  maxKurtosis : Option ℚ
  saturationLevel : Option Nat
deriving DecidableEq, Repr

/-- `PeakDetector::new(width, floor, ceiling)`. -/
def PeakDetector.new (width floor ceiling : Nat) : PeakDetector :=
  ⟨width, floor, ceiling, none, none, none⟩

/-- Builder method `.min_height_above_background(v)`. -/
def PeakDetector.min_height_above_background (d : PeakDetector) (v : ℚ) :
    PeakDetector :=
  { d with minHeightAboveBackground := some v }

/-- Builder method `.max_kurtosis(v)`. -/
def PeakDetector.max_kurtosis (d : PeakDetector) (v : ℚ) : PeakDetector :=
  { d with maxKurtosis := some v }

/-- Builder method `.saturation(v)` (named apart from the field). -/
def PeakDetector.with_saturation (d : PeakDetector) (v : Nat) : PeakDetector :=
  { d with saturationLevel := some v }

/-- The type of the external peak-detection capability
(`detect_peaks(samples)` on a configured detector). -/
abbrev Detect := PeakDetector → List Nat → List Peak

/-- The type of the external `f64` function `x.atan().to_degrees()`. -/
abbrev AtanDeg := ℚ → ℚ

-- Constants from src/convert.rs, lines 13-20.

def HIGH_WIDTH : Nat := 2
def HIGH_FLOOR : Nat := 15
def HIGH_CEILING : Nat := 255
def LOW_WIDTHS : Nat × Nat := (3, 2)
def LOW_FLOOR : Nat := 15
def LOW_CEILINGS : Nat × Nat := (250, 255)
def MIN_HEIGHT_ABOVE_BACKGROUND : ℚ := 5.0
def MAX_KURTOSIS : ℚ := 0.04

/-- The high-channel detector built by `discretize` (src/convert.rs 61-63). -/
def high_detector : PeakDetector :=
  ((PeakDetector.new HIGH_WIDTH HIGH_FLOOR HIGH_CEILING).min_height_above_background
      MIN_HEIGHT_ABOVE_BACKGROUND).max_kurtosis MAX_KURTOSIS

/-- The low-channel detector built by `discretize` (src/convert.rs 64-71);
its width and ceiling depend on whether the record has high-channel blocks. -/
def low_detector (numHighBlocks : Nat) : PeakDetector :=
  let wc : Nat × Nat :=
    match numHighBlocks with
    | 0 => (LOW_WIDTHS.fst, LOW_CEILINGS.fst)
    | _ => (LOW_WIDTHS.snd, LOW_CEILINGS.snd)
  (((PeakDetector.new wc.fst LOW_FLOOR wc.snd).min_height_above_background
      MIN_HEIGHT_ABOVE_BACKGROUND).max_kurtosis MAX_KURTOSIS).with_saturation
    LOW_CEILINGS.snd

/-- The reference-channel detector (src/convert.rs 72): reuses the
high-channel configuration. -/
def reference_detector : PeakDetector := high_detector

/-- A 3D point in the scanner's own coordinate frame (src/convert.rs,
`struct Point`).  The `f32` fields are modelled as exact rationals here;
their declared machine precision is reflected separately by `FloatTy`
constants below. -/
structure Point where
  time : ℚ
  range : ℚ
  theta : ℚ
  x : ℚ
  y : ℚ
  z : ℚ
  target : Nat
  num_target : Nat
  facet : Nat
  peak : Peak
  high_channel : Bool
deriving DecidableEq, Repr

/-- A Rust floating-point type. -/
inductive FloatTy where
  | f32
  | f64
deriving DecidableEq, Repr

/-- Declared type of `Point.time` in the source: `pub time: f64`. -/
def Point.timeTy : FloatTy := .f64

/-- Declared type of `Point.range` in the source: `pub range: f32`. -/
def Point.rangeTy : FloatTy := .f32

/-- Declared type of `Point.theta` in the source: `pub theta: f32`. -/
def Point.thetaTy : FloatTy := .f32

/-- Declared type of `Point.x` in the source: `pub x: f32`. -/
def Point.xTy : FloatTy := .f32

/-- Declared type of `Point.y` in the source: `pub y: f32`. -/
def Point.yTy : FloatTy := .f32

/-- Declared type of `Point.z` in the source: `pub z: f32`. -/
def Point.zTy : FloatTy := .f32

/-- Type of the local `range` binding in `discretize`
(`file_info.v_group / 2.0 * (time - t_ref)`): an `f64` expression. -/
def discretizeRangeLocalTy : FloatTy := .f64

/-- Type of the local `time` binding in `discretize` (the `timestamp`
closure returns `f64`). -/
def discretizeTimeLocalTy : FloatTy := .f64

/-- The result of the block-classification loop of `discretize`
(src/convert.rs 43-59): high blocks, low blocks, and the optional
reference block, in encounter order. -/
structure Classified where
  high : List Block
  low : List Block
  reference : Option Block
deriving DecidableEq, Repr

/-- The block-classification loop of `discretize` (src/convert.rs 46-59).
Pushing onto a `Vec` is modelled by appending at the tail.  Finding a second
`Reference` block panics; the panic message travels in the `Except.error`
branch and is turned into an `Outcome.panic` by `discretize`. -/
def classify : List Block → Classified → Except String Classified
  | [], acc => .ok acc
  | b :: rest, acc =>
    match b.channel with
    | .High => classify rest { acc with high := acc.high ++ [b] }
    | .Low => classify rest { acc with low := acc.low ++ [b] }
    | .Reference =>
      match acc.reference with
      | some _ => .error "More than one reference block in this record"
      | none => classify rest { acc with reference := some b }
    | .Saturation => classify rest acc

/-- The `timestamp` closure of `discretize` (src/convert.rs 82-84):
`block.time_sosbl + peak.index as f64 * file_info.sampling_time`. -/
def timestamp (file_info : FileInfo) (peak : Peak) (block : Block) : ℚ :=
  block.time_sosbl + (peak.index : ℚ) * file_info.sampling_time

/-- The body of the per-block loop of `discretize` (src/convert.rs 92-116):
runs the given configured detector on the block's samples and builds one
`Point` per detected peak.  `(i + 1) as u8` and `num_target as u8` are the
source's narrowing casts, modelled as `% 256`. -/
def pointsOfBlock (detect : Detect) (atanDeg : AtanDeg) (record : Record)
    (file_info : FileInfo) (t_ref : ℚ) (detector : PeakDetector)
    (block : Block) : List Point :=
  let peaks := detect detector block.samples
  let num_target := peaks.length
  peaks.enum.map (fun ip =>
    let i := ip.fst
    let peak := ip.snd
    let time := timestamp file_info peak block
    let range := file_info.v_group / 2 * (time - t_ref)
    let theta := atanDeg (record.direction.z / record.direction.x)
    { time := time - record.time_sorg + record.time_external
      range := range
      theta := theta
      x := record.origin.x + record.direction.x * range
      y := record.origin.y + record.direction.y * range
      z := record.origin.z + record.direction.z * range
      target := (i + 1) % 256
      num_target := num_target % 256
      facet := record.facet
      peak := peak
      high_channel := decide (block.channel = Channel.High) })

/-- `discretize` (src/convert.rs 42-120): turns a single sdf record into
zero or more `Point`s.  Panics when the record does not hold exactly one
reference block; returns the recoverable `NeedSingleReferencePeak` error
when the reference detector does not yield exactly one peak. -/
def discretize (detect : Detect) (atanDeg : AtanDeg) (record : Record)
    (file_info : FileInfo) : Outcome (List Point) :=
  match classify record.blocks ⟨[], [], none⟩ with
  | .error msg => .panic msg
  | .ok cls =>
    match cls.reference with
    | none => .panic "called `Option::unwrap()` on a `None` value"
    | some reference_block =>
      let lowDet := low_detector cls.high.length
      let reference_peaks := detect reference_detector reference_block.samples
      match reference_peaks with
      | [reference_peak] =>
        let t_ref := timestamp file_info reference_peak reference_block
        .ok ((cls.low.map (fun b => (b, lowDet)) ++
              cls.high.map (fun b => (b, high_detector))).flatMap
          (fun bd => pointsOfBlock detect atanDeg record file_info t_ref bd.snd bd.fst))
      | ps => .err (SdfError.NeedSingleReferencePeak ps.length)

/-- Sequentially writes points to the output sink; the first sink error
aborts (the inner loop of `File::convert`, src/convert.rs 172-196). -/
def writeAll (write : Point → Except SdfError Unit) : List Point → Except SdfError Unit
  | [] => .ok ()
  | p :: rest =>
    match write p with
    | .error e => .error e
    | .ok _ => writeAll write rest

/-- The record loop of `File::convert` (src/convert.rs 163-197), over the
session's records given as a list.  `i` is the sequential record index;
`skipped` accumulates the indices of records skipped because of the
recoverable `NeedSingleReferencePeak` condition (logged by `warn!` in the
source).  Any other error aborts; a panic from `discretize` propagates. -/
def convertLoop (detect : Detect) (atanDeg : AtanDeg) (file_info : FileInfo)
    (write : Point → Except SdfError Unit) :
    Nat → List Record → List Nat → Outcome (List Nat)
  | _, [], skipped => .ok skipped
  | i, record :: rest, skipped =>
    match discretize detect atanDeg record file_info with
    | .panic m => .panic m
    | .err (SdfError.NeedSingleReferencePeak _) =>
      convertLoop detect atanDeg file_info write (i + 1) rest (skipped ++ [i])
    | .err e => .err e
    | .ok points =>
      match writeAll write points with
      | .error e => .err e
      | .ok _ => convertLoop detect atanDeg file_info write (i + 1) rest skipped

/-- `File::convert` (src/convert.rs 159-199), with the session's records
abstracted as the list produced by the file iterator and the sdc writer
abstracted as `write`.  Returns the indices of skipped records. -/
def convert (detect : Detect) (atanDeg : AtanDeg) (records : List Record)
    (file_info : FileInfo) (write : Point → Except SdfError Unit) :
    Outcome (List Nat) :=
  convertLoop detect atanDeg file_info write 0 records []

/-- The reference blocks of a list of blocks, in order. -/
def referenceBlocks (blocks : List Block) : List Block :=
  blocks.filter (fun b => decide (b.channel = Channel.Reference))

/-- The low-channel blocks of a list of blocks, in order. -/
def lowBlocks (blocks : List Block) : List Block :=
  blocks.filter (fun b => decide (b.channel = Channel.Low))

/-- The high-channel blocks of a list of blocks, in order. -/
def highBlocks (blocks : List Block) : List Block :=
  blocks.filter (fun b => decide (b.channel = Channel.High))

-- Concrete inputs used by witnesses and counterexamples.

/-- A concrete reference block: starts at 100 s, one sample. -/
def refBlockF : Block :=
  { time_sosbl := 100, channel := Channel.Reference, samples := [7] }

/-- A concrete low-channel block: starts at 200 s, two samples. -/
def lowBlockF : Block :=
  { time_sosbl := 200, channel := Channel.Low, samples := [1, 2] }

/-- A concrete record holding one reference block and one low block. -/
def testRecord : Record :=
  { time_sorg := 7, time_external := 3, origin := ⟨0, 0, 0⟩,
    direction := ⟨1, 0, 0⟩, synchronized := false, sync_lastsec := false,
    housekeeping := false, facet := 2, blocks := [refBlockF, lowBlockF] }

/-- A concrete record with no blocks at all (zero reference blocks). -/
def emptyRecord : Record := { testRecord with blocks := [] }

/-- Concrete file information: group velocity 6 m/s, sampling time 1 s. -/
def testInfo : FileInfo :=
  { instrument := "", serial := "", epoch := "", v_group := 6,
    sampling_time := 1, gps_synchronized := false, num_facets := 4 }

/-- A concrete detector capability: one peak on one-sample inputs, two
ascending peaks otherwise. -/
def testDetect : Detect :=
  fun _ s => if s.length = 1 then [⟨0, 5⟩] else [⟨0, 5⟩, ⟨1, 6⟩]

/-- A concrete detector capability that never finds a peak. -/
def detectNone : Detect := fun _ _ => []

/-- A concrete detector capability returning 256 peaks on any input that
does not have exactly one sample (and a single peak when it does). -/
def manyPeakDetect : Detect :=
  fun _ s =>
    if s.length = 1 then [⟨0, 5⟩]
    else (List.range 256).map (fun i => ⟨i, 1⟩)

/-- A concrete stand-in for `atan().to_degrees()`. -/
def testAtan : AtanDeg := fun _ => 0

/-- A concrete sink that accepts every point. -/
def writeOk : Point → Except SdfError Unit := fun _ => .ok ()

/-- The single reference peak `testDetect` finds on `refBlockF.samples`. -/
def refPeakF : Peak := ⟨0, 5⟩

/-- The output point list of
`discretize testDetect testAtan testRecord testInfo`, given as the
classified low-then-high concatenation it evaluates to. -/
def fixturePts : List Point :=
  (lowBlocks testRecord.blocks).flatMap
    (fun b => pointsOfBlock testDetect testAtan testRecord testInfo
      (timestamp testInfo refPeakF refBlockF)
      (low_detector (highBlocks testRecord.blocks).length) b) ++
  (highBlocks testRecord.blocks).flatMap
    (fun b => pointsOfBlock testDetect testAtan testRecord testInfo
      (timestamp testInfo refPeakF refBlockF) high_detector b)

-- Helper lemmas about the channel filters and the classification loop.

theorem referenceBlocks_nil : referenceBlocks [] = [] := rfl

theorem lowBlocks_nil : lowBlocks [] = [] := rfl

theorem highBlocks_nil : highBlocks [] = [] := rfl

theorem referenceBlocks_cons (b : Block) (rest : List Block) :
    referenceBlocks (b :: rest) =
      if b.channel = Channel.Reference then b :: referenceBlocks rest
      else referenceBlocks rest := by
  simp [referenceBlocks, List.filter_cons]

theorem lowBlocks_cons (b : Block) (rest : List Block) :
    lowBlocks (b :: rest) =
      if b.channel = Channel.Low then b :: lowBlocks rest else lowBlocks rest := by
  simp [lowBlocks, List.filter_cons]

theorem highBlocks_cons (b : Block) (rest : List Block) :
    highBlocks (b :: rest) =
      if b.channel = Channel.High then b :: highBlocks rest
      else highBlocks rest := by
  simp [highBlocks, List.filter_cons]

theorem classify_ok_of_no_ref (blocks : List Block) (acc : Classified)
    (h : referenceBlocks blocks = []) :
    classify blocks acc =
      .ok ⟨acc.high ++ highBlocks blocks, acc.low ++ lowBlocks blocks,
           acc.reference⟩ := by
  induction blocks generalizing acc with
  | nil => simp [classify, highBlocks_nil, lowBlocks_nil]
  | cons b rest ih =>
    rw [referenceBlocks_cons] at h
    rw [highBlocks_cons, lowBlocks_cons]
    cases hc : b.channel with
    | High =>
      rw [hc] at h
      simp only [classify, hc]
      rw [ih _ h]
      simp
    | Low =>
      rw [hc] at h
      simp only [classify, hc]
      rw [ih _ h]
      simp
    | Saturation =>
      rw [hc] at h
      simp only [classify, hc]
      rw [ih _ h]
      simp
    | Reference => simp [hc] at h

theorem classify_ok_of_one_ref (blocks : List Block) (acc : Classified)
    (rb : Block) (hacc : acc.reference = none)
    (h : referenceBlocks blocks = [rb]) :
    classify blocks acc =
      .ok ⟨acc.high ++ highBlocks blocks, acc.low ++ lowBlocks blocks,
           some rb⟩ := by
  induction blocks generalizing acc with
  | nil => simp [referenceBlocks_nil] at h
  | cons b rest ih =>
    rw [referenceBlocks_cons] at h
    rw [highBlocks_cons, lowBlocks_cons]
    cases hc : b.channel with
    | High =>
      rw [hc, if_neg (by decide)] at h
      simp only [classify, hc]
      rw [ih { acc with high := acc.high ++ [b] } hacc h]
      simp
    | Low =>
      rw [hc, if_neg (by decide)] at h
      simp only [classify, hc]
      rw [ih { acc with low := acc.low ++ [b] } hacc h]
      simp
    | Saturation =>
      rw [hc, if_neg (by decide)] at h
      simp only [classify, hc]
      rw [ih acc hacc h]
      simp
    | Reference =>
      rw [hc, if_pos rfl] at h
      obtain ⟨hb, hrest⟩ := List.cons_eq_cons.mp h
      subst hb
      simp only [classify, hc, hacc]
      rw [classify_ok_of_no_ref _ _ hrest]
      simp

theorem classify_err_of_some_ref (blocks : List Block) (acc : Classified)
    (hacc : acc.reference.isSome = true)
    (h : referenceBlocks blocks ≠ []) :
    classify blocks acc =
      .error "More than one reference block in this record" := by
  induction blocks generalizing acc with
  | nil => simp [referenceBlocks_nil] at h
  | cons b rest ih =>
    rw [referenceBlocks_cons] at h
    cases hc : b.channel with
    | High =>
      rw [hc] at h
      simp only [classify, hc]
      exact ih _ (by simpa using hacc) (by simpa using h)
    | Low =>
      rw [hc] at h
      simp only [classify, hc]
      exact ih _ (by simpa using hacc) (by simpa using h)
    | Saturation =>
      rw [hc] at h
      simp only [classify, hc]
      exact ih _ hacc (by simpa using h)
    | Reference =>
      obtain ⟨rb, hrb⟩ := Option.isSome_iff_exists.mp hacc
      simp [classify, hc, hrb]

theorem classify_err_of_two_refs (blocks : List Block) (acc : Classified)
    (h : 2 ≤ (referenceBlocks blocks).length) :
    classify blocks acc =
      .error "More than one reference block in this record" := by
  induction blocks generalizing acc with
  | nil => simp [referenceBlocks_nil] at h
  | cons b rest ih =>
    rw [referenceBlocks_cons] at h
    cases hc : b.channel with
    | High =>
      rw [hc] at h
      simp only [classify, hc]
      exact ih _ (by simpa using h)
    | Low =>
      rw [hc] at h
      simp only [classify, hc]
      exact ih _ (by simpa using h)
    | Saturation =>
      rw [hc] at h
      simp only [classify, hc]
      exact ih _ (by simpa using h)
    | Reference =>
      rw [hc] at h
      simp only [if_pos, List.length_cons] at h
      cases hacc : acc.reference with
      | some rb => simp [classify, hc, hacc]
      | none =>
        simp only [classify, hc, hacc]
        exact classify_err_of_some_ref _ _ (by simp)
          (by
            intro hempty
            rw [hempty] at h
            simp at h)

-- Reduction lemmas about `discretize` and `pointsOfBlock`.

theorem discretize_ok_form (detect : Detect) (atanDeg : AtanDeg)
    (record : Record) (file_info : FileInfo) (rb : Block) (rp : Peak)
    (hrb : referenceBlocks record.blocks = [rb])
    (hrp : detect reference_detector rb.samples = [rp]) :
    discretize detect atanDeg record file_info =
      .ok ((lowBlocks record.blocks).flatMap
            (fun b => pointsOfBlock detect atanDeg record file_info
              (timestamp file_info rp rb)
              (low_detector (highBlocks record.blocks).length) b) ++
          (highBlocks record.blocks).flatMap
            (fun b => pointsOfBlock detect atanDeg record file_info
              (timestamp file_info rp rb) high_detector b)) := by
  unfold discretize
  rw [classify_ok_of_one_ref _ _ rb rfl hrb]
  simp only [List.nil_append]
  rw [hrp]
  simp [List.flatMap_append, List.flatMap_map]

theorem pointsOfBlock_length (detect : Detect) (atanDeg : AtanDeg)
    (record : Record) (file_info : FileInfo) (t0 : ℚ) (d : PeakDetector)
    (b : Block) :
    (pointsOfBlock detect atanDeg record file_info t0 d b).length =
      (detect d b.samples).length := by
  simp [pointsOfBlock]

theorem pointsOfBlock_getElem (detect : Detect) (atanDeg : AtanDeg)
    (record : Record) (file_info : FileInfo) (t0 : ℚ) (d : PeakDetector)
    (b : Block) (i : Nat)
    (hpk : i < (detect d b.samples).length)
    (h : i < (pointsOfBlock detect atanDeg record file_info t0 d b).length) :
    (pointsOfBlock detect atanDeg record file_info t0 d b)[i] =
      { time := timestamp file_info (detect d b.samples)[i] b -
          record.time_sorg + record.time_external
        range := file_info.v_group / 2 *
          (timestamp file_info (detect d b.samples)[i] b - t0)
        theta := atanDeg (record.direction.z / record.direction.x)
        x := record.origin.x + record.direction.x *
          (file_info.v_group / 2 *
            (timestamp file_info (detect d b.samples)[i] b - t0))
        y := record.origin.y + record.direction.y *
          (file_info.v_group / 2 *
            (timestamp file_info (detect d b.samples)[i] b - t0))
        z := record.origin.z + record.direction.z *
          (file_info.v_group / 2 *
            (timestamp file_info (detect d b.samples)[i] b - t0))
        target := (i + 1) % 256
        num_target := (detect d b.samples).length % 256
        facet := record.facet
        peak := (detect d b.samples)[i]
        high_channel := decide (b.channel = Channel.High) } := by
  simp [pointsOfBlock, List.getElem_enum]

/-- C1: a record whose reference-block count is not exactly 1 makes
`discretize` fail loudly and distinguishably — it panics (either on the
second reference block or on unwrapping the absent one) and never returns
a point list. -/
theorem c1_malformed_reference_count_is_fatal (detect : Detect)
    (atanDeg : AtanDeg) (record : Record) (file_info : FileInfo)
    (h : (referenceBlocks record.blocks).length ≠ 1) :
    (discretize detect atanDeg record file_info).isPanic = true ∧
      (discretize detect atanDeg record file_info).isOk = false := by
  rcases hn : (referenceBlocks record.blocks).length with _ | n
  · have hempty : referenceBlocks record.blocks = [] :=
      List.length_eq_zero.mp hn
    unfold discretize
    rw [classify_ok_of_no_ref _ _ hempty]
    exact ⟨rfl, rfl⟩
  · have h2 : 2 ≤ (referenceBlocks record.blocks).length := by
      rw [hn] at h ⊢
      omega
    unfold discretize
    rw [classify_err_of_two_refs _ _ h2]
    exact ⟨rfl, rfl⟩

/-- C2: with exactly one reference block, a reference peak count `n ≠ 1`
makes `discretize` return the recoverable error
`NeedSingleReferencePeak n` and no points. -/
theorem c2_need_single_reference_peak (detect : Detect) (atanDeg : AtanDeg)
    (record : Record) (file_info : FileInfo) (rb : Block) (n : Nat)
    (hrb : referenceBlocks record.blocks = [rb])
    (hn : (detect reference_detector rb.samples).length = n)
    (h1 : n ≠ 1) :
    discretize detect atanDeg record file_info =
      .err (SdfError.NeedSingleReferencePeak n) := by
  unfold discretize
  rw [classify_ok_of_one_ref _ _ rb rfl hrb]
  simp only [List.nil_append]
  rcases hps : detect reference_detector rb.samples with _ | ⟨p, _ | ⟨q, t⟩⟩
  · rw [hps] at hn
    simp only [List.length_nil] at hn
    subst hn
    simp [hps]
  · rw [hps] at hn
    simp only [List.length_singleton] at hn
    subst hn
    exact absurd rfl h1
  · rw [hps] at hn
    subst hn
    simp [hps]

theorem mem_pointsOfBlock_spec (detect : Detect) (atanDeg : AtanDeg)
    (record : Record) (file_info : FileInfo) (t0 : ℚ) (d : PeakDetector)
    (b : Block) (p : Point)
    (hp : p ∈ pointsOfBlock detect atanDeg record file_info t0 d b) :
    ∃ i, ∃ h : i < (detect d b.samples).length,
      p.peak = (detect d b.samples)[i] ∧
      p.range = file_info.v_group / 2 *
        (timestamp file_info (detect d b.samples)[i] b - t0) ∧
      p.target = (i + 1) % 256 ∧
      p.num_target = (detect d b.samples).length % 256 := by
  rw [List.mem_iff_getElem] at hp
  obtain ⟨i, h, hp⟩ := hp
  have hpk : i < (detect d b.samples).length := by
    rw [← pointsOfBlock_length detect atanDeg record file_info t0 d b]
    exact h
  refine ⟨i, hpk, ?_⟩
  rw [pointsOfBlock_getElem detect atanDeg record file_info t0 d b i hpk h] at hp
  subst hp
  exact ⟨rfl, rfl, rfl, rfl⟩

theorem pointsOfBlock_map_peak_index (detect : Detect) (atanDeg : AtanDeg)
    (record : Record) (file_info : FileInfo) (t0 : ℚ) (d : PeakDetector)
    (b : Block) :
    (pointsOfBlock detect atanDeg record file_info t0 d b).map
        (fun p => p.peak.index) =
      (detect d b.samples).map Peak.index := by
  conv_rhs => rw [← List.enum_map_snd (detect d b.samples)]
  rw [List.map_map]
  simp [pointsOfBlock, List.map_map, Function.comp]

theorem fixturePts_ne_nil : fixturePts ≠ [] := by decide

/-- C4: every point produced by a successful decomposition satisfies
`range = (v_group / 2) * (peak_time - t_ref)`, with
`peak_time = block.time_sosbl + peak.index * sampling_time` for the point's
source block and peak, and
`t_ref = reference_block.time_sosbl + reference_peak.index * sampling_time`. -/
theorem c4_range_formula (detect : Detect) (atanDeg : AtanDeg)
    (record : Record) (file_info : FileInfo) (rb : Block) (rp : Peak)
    (pts : List Point)
    (hrb : referenceBlocks record.blocks = [rb])
    (hrp : detect reference_detector rb.samples = [rp])
    (hdisc : discretize detect atanDeg record file_info = .ok pts)
    (p : Point) (hp : p ∈ pts) :
    ∃ b ∈ record.blocks,
      p.range = file_info.v_group / 2 *
        ((b.time_sosbl + (p.peak.index : ℚ) * file_info.sampling_time) -
         (rb.time_sosbl + (rp.index : ℚ) * file_info.sampling_time)) := by
  rw [discretize_ok_form detect atanDeg record file_info rb rp hrb hrp] at hdisc
  have hpts := Outcome.ok.inj hdisc
  subst hpts
  rcases List.mem_append.mp hp with h | h
  · obtain ⟨b, hb, hpb⟩ := List.mem_flatMap.mp h
    simp only [lowBlocks] at hb
    obtain ⟨hbmem, _⟩ := List.mem_filter.mp hb
    obtain ⟨i, hpk, hpeak, hrange, _, _⟩ :=
      mem_pointsOfBlock_spec _ _ _ _ _ _ _ _ hpb
    refine ⟨b, hbmem, ?_⟩
    rw [hrange, hpeak]
    simp [timestamp]
  · obtain ⟨b, hb, hpb⟩ := List.mem_flatMap.mp h
    simp only [highBlocks] at hb
    obtain ⟨hbmem, _⟩ := List.mem_filter.mp hb
    obtain ⟨i, hpk, hpeak, hrange, _, _⟩ :=
      mem_pointsOfBlock_spec _ _ _ _ _ _ _ _ hpb
    refine ⟨b, hbmem, ?_⟩
    rw [hrange, hpeak]
    simp [timestamp]

/-- C4 witness: the first point of the concrete fixture run satisfies the
range formula (the hypotheses of `c4_range_formula` hold there). -/
theorem c4_range_formula_witness :
    referenceBlocks testRecord.blocks = [refBlockF] ∧
    testDetect reference_detector refBlockF.samples = [refPeakF] ∧
    discretize testDetect testAtan testRecord testInfo = .ok fixturePts ∧
    ∃ b ∈ testRecord.blocks,
      (fixturePts.head fixturePts_ne_nil).range =
        testInfo.v_group / 2 *
          ((b.time_sosbl +
              ((fixturePts.head fixturePts_ne_nil).peak.index : ℚ) *
                testInfo.sampling_time) -
           (refBlockF.time_sosbl +
              (refPeakF.index : ℚ) * testInfo.sampling_time)) :=
  ⟨rfl, rfl,
    discretize_ok_form testDetect testAtan testRecord testInfo refBlockF
      refPeakF rfl rfl,
    c4_range_formula testDetect testAtan testRecord testInfo refBlockF
      refPeakF fixturePts rfl rfl
      (discretize_ok_form testDetect testAtan testRecord testInfo refBlockF
        refPeakF rfl rfl)
      (fixturePts.head fixturePts_ne_nil)
      (List.head_mem fixturePts_ne_nil)⟩

/-- C5: a successful decomposition returns the low-channel blocks' points
first and then the high-channel blocks' points, each channel's blocks in
their original record order; and, whenever the external detector returns
its peaks in ascending sample index, the points of each block appear in
ascending sample index. -/
theorem c5_output_ordering (detect : Detect) (atanDeg : AtanDeg)
    (record : Record) (file_info : FileInfo) (rb : Block) (rp : Peak)
    (pts : List Point)
    (hrb : referenceBlocks record.blocks = [rb])
    (hrp : detect reference_detector rb.samples = [rp])
    (hdisc : discretize detect atanDeg record file_info = .ok pts) :
    pts =
      (lowBlocks record.blocks).flatMap
        (fun b => pointsOfBlock detect atanDeg record file_info
          (timestamp file_info rp rb)
          (low_detector (highBlocks record.blocks).length) b) ++
      (highBlocks record.blocks).flatMap
        (fun b => pointsOfBlock detect atanDeg record file_info
          (timestamp file_info rp rb) high_detector b) ∧
    (∀ (hsort : ∀ (d : PeakDetector) (s : List Nat),
        List.Sorted (· < ·) ((detect d s).map Peak.index)),
      ∀ (t0 : ℚ) (d : PeakDetector) (b : Block),
        List.Sorted (· < ·)
          ((pointsOfBlock detect atanDeg record file_info t0 d b).map
            (fun p => p.peak.index))) := by
  constructor
  · rw [discretize_ok_form detect atanDeg record file_info rb rp hrb hrp] at hdisc
    exact (Outcome.ok.inj hdisc).symm
  · intro hsort t0 d b
    rw [pointsOfBlock_map_peak_index]
    exact hsort d b.samples

/-- C5 witness: at the concrete fixture run, the output is the low-then-high
concatenation, and the low block's points are ascending in sample index. -/
theorem c5_output_ordering_witness :
    referenceBlocks testRecord.blocks = [refBlockF] ∧
    fixturePts =
      (lowBlocks testRecord.blocks).flatMap
        (fun b => pointsOfBlock testDetect testAtan testRecord testInfo
          (timestamp testInfo refPeakF refBlockF)
          (low_detector (highBlocks testRecord.blocks).length) b) ++
      (highBlocks testRecord.blocks).flatMap
        (fun b => pointsOfBlock testDetect testAtan testRecord testInfo
          (timestamp testInfo refPeakF refBlockF) high_detector b) ∧
    List.Sorted (· < ·)
      ((pointsOfBlock testDetect testAtan testRecord testInfo
          (timestamp testInfo refPeakF refBlockF)
          (low_detector (highBlocks testRecord.blocks).length)
          lowBlockF).map (fun p => p.peak.index)) := by
  have h := c5_output_ordering testDetect testAtan testRecord testInfo
    refBlockF refPeakF fixturePts rfl rfl
    (discretize_ok_form testDetect testAtan testRecord testInfo refBlockF
      refPeakF rfl rfl)
  refine ⟨rfl, h.1, h.2 ?_ _ _ _⟩
  intro d s
  simp only [testDetect]
  split <;> decide

theorem target_bounds_of_mem (detect : Detect) (atanDeg : AtanDeg)
    (record : Record) (file_info : FileInfo) (t0 : ℚ) (d : PeakDetector)
    (b : Block) (p : Point)
    (hbound : ∀ (d : PeakDetector) (s : List Nat), (detect d s).length ≤ 255)
    (hp : p ∈ pointsOfBlock detect atanDeg record file_info t0 d b) :
    1 ≤ p.target ∧ p.target ≤ p.num_target := by
  obtain ⟨i, hpk, _, _, htar, hnum⟩ :=
    mem_pointsOfBlock_spec _ _ _ _ _ _ _ _ hp
  have hlen : (detect d b.samples).length ≤ 255 := hbound d b.samples
  rw [htar, hnum, Nat.mod_eq_of_lt (by omega), Nat.mod_eq_of_lt (by omega)]
  omega

/-- C6 counterexample: with a detector returning 256 peaks on the low
block, `discretize` succeeds and produces a point whose `target` is 0, so
`1 ≤ target ≤ num_target` fails for a produced point, refuting the claim
as stated. -/
theorem c6_target_zero_counterexample :
    (discretize manyPeakDetect testAtan testRecord testInfo).isOk = true ∧
    (discretize manyPeakDetect testAtan testRecord testInfo).pointsOrNil.any
      (fun p => p.target == 0) = true := by
  exact ⟨by decide, by decide⟩

/-- C6 (amended): whenever the detector returns at most 255 peaks per
block, every produced point satisfies `1 ≤ target ≤ num_target`; and the
`i`-th point of a block carries `target = i + 1` (1-indexed position in
that block's detector result) and `num_target` equal to the block's total
peak count.  (In general the stored values are these quantities reduced
modulo 256.) -/
theorem c6_target_indexing (detect : Detect) (atanDeg : AtanDeg)
    (record : Record) (file_info : FileInfo) (rb : Block) (rp : Peak)
    (pts : List Point)
    (hrb : referenceBlocks record.blocks = [rb])
    (hrp : detect reference_detector rb.samples = [rp])
    (hdisc : discretize detect atanDeg record file_info = .ok pts)
    (hbound : ∀ (d : PeakDetector) (s : List Nat), (detect d s).length ≤ 255) :
    (∀ p ∈ pts, 1 ≤ p.target ∧ p.target ≤ p.num_target) ∧
    (∀ (t0 : ℚ) (d : PeakDetector) (b : Block) (i : Nat)
      (hpk : i < (detect d b.samples).length)
      (h : i < (pointsOfBlock detect atanDeg record file_info t0 d b).length),
      (pointsOfBlock detect atanDeg record file_info t0 d b)[i].target =
        i + 1 ∧
      (pointsOfBlock detect atanDeg record file_info t0 d b)[i].num_target =
        (detect d b.samples).length) := by
  constructor
  · intro p hp
    rw [discretize_ok_form detect atanDeg record file_info rb rp hrb hrp]
      at hdisc
    have hpts := Outcome.ok.inj hdisc
    subst hpts
    rcases List.mem_append.mp hp with h | h
    · obtain ⟨b, _, hpb⟩ := List.mem_flatMap.mp h
      exact target_bounds_of_mem _ _ _ _ _ _ _ _ hbound hpb
    · obtain ⟨b, _, hpb⟩ := List.mem_flatMap.mp h
      exact target_bounds_of_mem _ _ _ _ _ _ _ _ hbound hpb
  · intro t0 d b i hpk h
    rw [pointsOfBlock_getElem detect atanDeg record file_info t0 d b i hpk h]
    have hlen : (detect d b.samples).length ≤ 255 := hbound d b.samples
    constructor
    · show (i + 1) % 256 = i + 1
      exact Nat.mod_eq_of_lt (by omega)
    · show (detect d b.samples).length % 256 = (detect d b.samples).length
      exact Nat.mod_eq_of_lt (by omega)

/-- C6 witness: the concrete fixture detector returns at most 255 peaks,
and the first fixture point satisfies the amended bounds. -/
theorem c6_target_indexing_witness :
    referenceBlocks testRecord.blocks = [refBlockF] ∧
    1 ≤ (fixturePts.head fixturePts_ne_nil).target ∧
    (fixturePts.head fixturePts_ne_nil).target ≤
      (fixturePts.head fixturePts_ne_nil).num_target := by
  have hbound : ∀ (d : PeakDetector) (s : List Nat),
      (testDetect d s).length ≤ 255 := by
    intro d s
    simp only [testDetect]
    split <;> decide
  have h := c6_target_indexing testDetect testAtan testRecord testInfo
    refBlockF refPeakF fixturePts rfl rfl
    (discretize_ok_form testDetect testAtan testRecord testInfo refBlockF
      refPeakF rfl rfl) hbound
  exact ⟨rfl, h.1 (fixturePts.head fixturePts_ne_nil)
    (List.head_mem fixturePts_ne_nil)⟩

/-- C10: for a block on which the detector returns at least 256 peaks, the
produced points carry `target` and `num_target` reduced modulo 256 (they
are stored in an 8-bit field), and in particular the 256th point has
`target = 0`, violating `1 ≤ target`. -/
theorem c10_target_mod_256 (detect : Detect) (atanDeg : AtanDeg)
    (record : Record) (file_info : FileInfo) (t0 : ℚ) (d : PeakDetector)
    (b : Block)
    (hn : 256 ≤ (detect d b.samples).length) :
    (∀ (i : Nat) (hpk : i < (detect d b.samples).length)
      (h : i < (pointsOfBlock detect atanDeg record file_info t0 d b).length),
      (pointsOfBlock detect atanDeg record file_info t0 d b)[i].target =
        (i + 1) % 256 ∧
      (pointsOfBlock detect atanDeg record file_info t0 d b)[i].num_target =
        (detect d b.samples).length % 256) ∧
    (∃ i, ∃ h : i < (pointsOfBlock detect atanDeg record file_info t0 d b).length,
      (pointsOfBlock detect atanDeg record file_info t0 d b)[i].target = 0 ∧
      ¬ 1 ≤ (pointsOfBlock detect atanDeg record file_info t0 d b)[i].target) := by
  constructor
  · intro i hpk h
    rw [pointsOfBlock_getElem detect atanDeg record file_info t0 d b i hpk h]
    exact ⟨rfl, rfl⟩
  · have h255 : 255 < (pointsOfBlock detect atanDeg record file_info t0 d b).length := by
      rw [pointsOfBlock_length]
      omega
    have hpk : 255 < (detect d b.samples).length := by omega
    refine ⟨255, h255, ?_, ?_⟩
    · rw [pointsOfBlock_getElem detect atanDeg record file_info t0 d b 255 hpk h255]
    · rw [pointsOfBlock_getElem detect atanDeg record file_info t0 d b 255 hpk h255]
      show ¬ 1 ≤ (255 + 1) % 256
      decide

/-- C10 witness: the 256-peak detector instantiates the hypothesis, and the
resulting low-block point list has a point with `target = 0`. -/
theorem c10_target_mod_256_witness :
    256 ≤ (manyPeakDetect (low_detector 0) lowBlockF.samples).length ∧
    (∃ i, ∃ h : i < (pointsOfBlock manyPeakDetect testAtan testRecord testInfo 0
        (low_detector 0) lowBlockF).length,
      (pointsOfBlock manyPeakDetect testAtan testRecord testInfo 0
        (low_detector 0) lowBlockF)[i].target = 0 ∧
      ¬ 1 ≤ (pointsOfBlock manyPeakDetect testAtan testRecord testInfo 0
        (low_detector 0) lowBlockF)[i].target) :=
  ⟨by decide,
    (c10_target_mod_256 manyPeakDetect testAtan testRecord testInfo 0
      (low_detector 0) lowBlockF (by decide)).2⟩

/-- C1 witness: the blockless record has zero reference blocks and its
decomposition panics (and does not return a point list). -/
theorem c1_malformed_reference_count_is_fatal_witness :
    (referenceBlocks emptyRecord.blocks).length ≠ 1 ∧
    ((discretize testDetect testAtan emptyRecord testInfo).isPanic = true ∧
      (discretize testDetect testAtan emptyRecord testInfo).isOk = false) :=
  ⟨by decide,
    c1_malformed_reference_count_is_fatal testDetect testAtan emptyRecord
      testInfo (by decide)⟩

/-- C2 witness: with the peakless detector, the fixture record (exactly one
reference block) makes `discretize` return `NeedSingleReferencePeak 0`. -/
theorem c2_need_single_reference_peak_witness :
    referenceBlocks testRecord.blocks = [refBlockF] ∧
    (detectNone reference_detector refBlockF.samples).length = 0 ∧
    (0 : Nat) ≠ 1 ∧
    discretize detectNone testAtan testRecord testInfo =
      .err (SdfError.NeedSingleReferencePeak 0) :=
  ⟨rfl, rfl, by decide,
    c2_need_single_reference_peak detectNone testAtan testRecord testInfo
      refBlockF 0 rfl rfl (by decide)⟩

/-- C3: the detector configurations built by `discretize` are exactly the
claimed numeric policy: high (2, 15, 255, 5.0, 0.04); low (3, 250) when the
record has no high-channel block and (2, 255) otherwise, with floor 15, the
same minimum height and kurtosis, and saturation at 255; and the reference
channel reuses the high-channel configuration. -/
theorem c3_detector_configuration_policy :
    high_detector =
      { width := 2, floor := 15, ceiling := 255,
        minHeightAboveBackground := some 5.0, maxKurtosis := some 0.04,
        saturationLevel := none } ∧
    low_detector 0 =
      { width := 3, floor := 15, ceiling := 250,
        minHeightAboveBackground := some 5.0, maxKurtosis := some 0.04,
        saturationLevel := some 255 } ∧
    (∀ n : Nat, low_detector (n + 1) =
      { width := 2, floor := 15, ceiling := 255,
        minHeightAboveBackground := some 5.0, maxKurtosis := some 0.04,
        saturationLevel := some 255 }) ∧
    reference_detector = high_detector :=
  ⟨rfl, rfl, fun _ => rfl, rfl⟩

/-- C8: decomposition is deterministic — two invocations of `discretize`
on equal record and file-information inputs return equal point sequences
(the embedded `discretize` is a pure function of its inputs). -/
theorem c8_deterministic (detect : Detect) (atanDeg : AtanDeg)
    (r1 r2 : Record) (f1 f2 : FileInfo) (hr : r1 = r2) (hf : f1 = f2) :
    discretize detect atanDeg r1 f1 = discretize detect atanDeg r2 f2 := by
  rw [hr, hf]

/-- C8 witness: determinism at the concrete fixture inputs. -/
theorem c8_deterministic_witness :
    testRecord = testRecord ∧ testInfo = testInfo ∧
    discretize testDetect testAtan testRecord testInfo =
      discretize testDetect testAtan testRecord testInfo :=
  ⟨rfl, rfl,
    c8_deterministic testDetect testAtan testRecord testRecord testInfo
      testInfo rfl rfl⟩

/-- C9 counterexample: the `range` field of the output `Point` is declared
`f32` in the source (`pub range: f32`), not `f64`: the projection results
are narrowed before delivery, contrary to the claim. -/
theorem c9_range_not_delivered_double : Point.rangeTy ≠ FloatTy.f64 := by
  decide

/-- C9 (amended): the Geometry Projector computes its `time` and `range`
expressions in `f64`, and the output `Point` delivers `time` at `f64` but
narrows `range`, `theta`, `x`, `y` and `z` to `f32`. -/
theorem c9_projection_precision :
    discretizeTimeLocalTy = FloatTy.f64 ∧
    discretizeRangeLocalTy = FloatTy.f64 ∧
    Point.timeTy = FloatTy.f64 ∧
    Point.rangeTy = FloatTy.f32 ∧
    Point.thetaTy = FloatTy.f32 ∧
    Point.xTy = FloatTy.f32 ∧
    Point.yTy = FloatTy.f32 ∧
    Point.zTy = FloatTy.f32 := by
  decide

theorem isRefPeakErr_eq_true {α : Type} (o : Outcome α) :
    o.isRefPeakErr = true ↔
      ∃ n, o = .err (SdfError.NeedSingleReferencePeak n) := by
  cases o with
  | ok v => simp [Outcome.isRefPeakErr]
  | panic m => simp [Outcome.isRefPeakErr]
  | err e => cases e <;> simp [Outcome.isRefPeakErr]

theorem convertLoop_all_ok (detect : Detect) (atanDeg : AtanDeg)
    (file_info : FileInfo) (write : Point → Except SdfError Unit) :
    ∀ (records : List Record) (i : Nat) (skipped : List Nat),
      (∀ r ∈ records,
        (discretize detect atanDeg r file_info).isRefPeakErr = true ∨
        ∃ pts, discretize detect atanDeg r file_info = .ok pts ∧
          writeAll write pts = .ok ()) →
      convertLoop detect atanDeg file_info write i records skipped =
        .ok (skipped ++
          ((records.enumFrom i).filter
            (fun ir =>
              (discretize detect atanDeg ir.snd file_info).isRefPeakErr)).map
            Prod.fst) := by
  intro records
  induction records with
  | nil =>
    intro i skipped h
    simp [convertLoop]
  | cons r rest ih =>
    intro i skipped h
    rcases h r (List.mem_cons_self r rest) with hr | ⟨pts, hok, hw⟩
    · obtain ⟨n, hn⟩ := (isRefPeakErr_eq_true _).mp hr
      have hstep : convertLoop detect atanDeg file_info write i (r :: rest)
          skipped =
          convertLoop detect atanDeg file_info write (i + 1) rest
            (skipped ++ [i]) := by
        simp [convertLoop, hn]
      rw [hstep,
        ih (i + 1) (skipped ++ [i])
          (fun x hx => h x (List.mem_cons_of_mem _ hx)),
        List.enumFrom_cons, List.filter_cons_of_pos (by simpa using hr),
        List.map_cons]
      simp
    · have hpred : (discretize detect atanDeg r file_info).isRefPeakErr =
          false := by
        rw [hok]
        rfl
      have hstep : convertLoop detect atanDeg file_info write i (r :: rest)
          skipped =
          convertLoop detect atanDeg file_info write (i + 1) rest skipped := by
        simp [convertLoop, hok, hw]
      rw [hstep,
        ih (i + 1) skipped (fun x hx => h x (List.mem_cons_of_mem _ hx)),
        List.enumFrom_cons, List.filter_cons_of_neg (by simp [hpred])]

/-- C7: in the conversion run, a record whose decomposition fails with the
recoverable `NeedSingleReferencePeak` condition is skipped — its
sequential index is recorded and the loop continues with the next record —
while any other decomposition error or a sink failure aborts the whole
run; when every record is either recoverable or fully written, the run
succeeds and records exactly the failing indices. -/
theorem c7_convert_skip_and_abort :
    (∀ (detect : Detect) (atanDeg : AtanDeg) (file_info : FileInfo)
      (write : Point → Except SdfError Unit) (i : Nat) (record : Record)
      (rest : List Record) (skipped : List Nat) (n : Nat),
      discretize detect atanDeg record file_info =
        .err (SdfError.NeedSingleReferencePeak n) →
      convertLoop detect atanDeg file_info write i (record :: rest) skipped =
        convertLoop detect atanDeg file_info write (i + 1) rest
          (skipped ++ [i])) ∧
    (∀ (detect : Detect) (atanDeg : AtanDeg) (file_info : FileInfo)
      (write : Point → Except SdfError Unit) (i : Nat) (record : Record)
      (rest : List Record) (skipped : List Nat) (e : SdfError),
      discretize detect atanDeg record file_info = .err e →
      (∀ n, e ≠ SdfError.NeedSingleReferencePeak n) →
      convertLoop detect atanDeg file_info write i (record :: rest) skipped =
        .err e) ∧
    (∀ (detect : Detect) (atanDeg : AtanDeg) (file_info : FileInfo)
      (write : Point → Except SdfError Unit) (i : Nat) (record : Record)
      (rest : List Record) (skipped : List Nat) (pts : List Point)
      (e : SdfError),
      discretize detect atanDeg record file_info = .ok pts →
      writeAll write pts = .error e →
      convertLoop detect atanDeg file_info write i (record :: rest) skipped =
        .err e) ∧
    (∀ (detect : Detect) (atanDeg : AtanDeg) (file_info : FileInfo)
      (write : Point → Except SdfError Unit) (records : List Record),
      (∀ r ∈ records,
        (discretize detect atanDeg r file_info).isRefPeakErr = true ∨
        ∃ pts, discretize detect atanDeg r file_info = .ok pts ∧
          writeAll write pts = .ok ()) →
      convert detect atanDeg records file_info write =
        .ok ((records.enum.filter
          (fun ir =>
            (discretize detect atanDeg ir.snd file_info).isRefPeakErr)).map
          Prod.fst)) := by
  refine ⟨?_, ?_, ?_, ?_⟩
  · intro detect atanDeg file_info write i record rest skipped n h
    simp [convertLoop, h]
  · intro detect atanDeg file_info write i record rest skipped e h hne
    cases e <;> first
      | exact absurd rfl (hne _)
      | simp [convertLoop, h]
  · intro detect atanDeg file_info write i record rest skipped pts e hok hw
    simp [convertLoop, hok, hw]
  · intro detect atanDeg file_info write records h
    rw [convert, convertLoop_all_ok detect atanDeg file_info write records 0
      [] h, ← List.enum_eq_enumFrom]
    simp

/-- C7 witness: at concrete inputs, a `NeedSingleReferencePeak` failure on
the first record makes the loop record index 0 and continue. -/
theorem c7_convert_skip_and_abort_witness :
    discretize detectNone testAtan testRecord testInfo =
      .err (SdfError.NeedSingleReferencePeak 0) ∧
    convertLoop detectNone testAtan testInfo writeOk 0 [testRecord] [] =
      convertLoop detectNone testAtan testInfo writeOk 1 [] ([] ++ [0]) :=
  ⟨by decide,
    c7_convert_skip_and_abort.1 detectNone testAtan testInfo writeOk 0
      testRecord [] [] 0 (by decide)⟩

end SdfRs
